import Mathlib

/-!
Verification of the scarf single-cell data store against its specification.

The repository's visible Python source provides the cell-cycle gene-list
constants (`scarf/bio_data.py`); the package init imports the core modules
(`scarf.datastore`, `scarf.meld_assay`, ...) which are not present in the
source tree, so the core data model (ChunkedMatrixStore, DataStore,
AssayMelder, GraphBuilder) is modelled from the specification text and the
claims are settled against that model.
-/

namespace Scarf

/-- Embedding of `s_phase_genes` from `src/scarf/bio_data.py`. -/
def s_phase_genes : List String := [
  "MCM5", "PCNA", "TYMS", "FEN1", "MCM2", "MCM4", "RRM1", "UNG", "GINS2", "MCM6",
  "CDCA7", "DTL", "PRIM1", "UHRF1", "MLF1IP", "HELLS", "RFC2", "RPA2", "NASP",
  "RAD51AP1", "GMNN", "WDR76", "SLBP", "CCNE2", "UBR7", "POLD3", "MSH2", "ATAD2",
  "RAD51", "RRM2", "CDC45", "CDC6", "EXO1", "TIPIN", "DSCC1", "BLM", "CASP8AP2",
  "USP1", "CLSPN", "POLA1", "CHAF1B", "BRIP1", "E2F8"]

/-- Embedding of `g2m_phase_genes` from `src/scarf/bio_data.py`. -/
def g2m_phase_genes : List String := [
  "HMGB2", "CDK1", "NUSAP1", "UBE2C", "BIRC5", "TPX2", "TOP2A", "NDC80", "CKS2",
  "NUF2", "CKS1B", "MKI67", "TMPO", "CENPF", "TACC3", "FAM64A", "SMC4", "CCNB2",
  "CKAP2L", "CKAP2", "AURKB", "BUB1", "KIF11", "ANP32E", "TUBB4B", "GTSE1",
  "KIF20B", "HJURP", "CDCA3", "HN1", "CDC20", "TTK", "CDC25C", "KIF2C",
  "RANGAP1", "NCAPD2", "DLGAP5", "CDCA2", "CDCA8", "ECT2", "KIF23", "HMMR",
  "AURKA", "PSRC1", "ANLN", "LBR", "CKAP5", "CENPE", "CTCF", "NEK2", "G2E3",
  "GAS2L3", "CBX5", "CENPA"]

/-- Modelled from the spec: the error taxonomy of §7 (the modules raising
these, `scarf/datastore.py` and friends, are absent from the source tree). -/
inductive StoreError where
  | outOfBounds
  | shapeMismatch
  | assayExists
  | assayNotFound
  | identifierConflict
  | insufficientData
  | alignmentViolation
  deriving DecidableEq, Repr

/-- A half-open index range `[start, stop)` along one matrix axis. -/
structure CRange where
  start : Nat
  stop : Nat
  deriving DecidableEq, Repr

/-- Number of indices addressed by the range. -/
def CRange.size (r : CRange) : Nat := r.stop - r.start

/-- The range lies within an axis of extent `dim`. -/
def CRange.inside (r : CRange) (dim : Nat) : Prop :=
  r.start ≤ r.stop ∧ r.stop ≤ dim

instance (r : CRange) (dim : Nat) : Decidable (r.inside dim) := by
  unfold CRange.inside; infer_instance

/-- An index lies in the half-open range. -/
def CRange.memb (r : CRange) (i : Nat) : Prop := r.start ≤ i ∧ i < r.stop

instance (r : CRange) (i : Nat) : Decidable (r.memb i) := by
  unfold CRange.memb; infer_instance

/-- Modelled from the spec: `ChunkedMatrixStore` (§4.1), absent from the
source tree.  A 2-D numeric matrix of declared shape `nrows × ncols`,
tiled by fixed-shape chunks of `chunkRows × chunkCols`; cell contents are
the function `data`. -/
structure ChunkedMatrixStore where
  nrows : Nat
  ncols : Nat
  chunkRows : Nat
  chunkCols : Nat
  data : Nat → Nat → Rat

/-- Modelled from the spec: `read(row_range, col_range)` returns a
materialized dense block when both ranges lie within the declared shape and
fails with `OutOfBoundsError` otherwise. -/
def ChunkedMatrixStore.read (s : ChunkedMatrixStore) (r c : CRange) :
    Except StoreError (List (List Rat)) :=
  if r.inside s.nrows ∧ c.inside s.ncols then
    .ok ((List.range r.size).map fun i =>
      (List.range c.size).map fun j => s.data (r.start + i) (c.start + j))
  else .error .outOfBounds

/-- The payload's shape matches the addressed `(row_range, col_range)`
region: row count equals the row-range size and every row's length equals
the column-range size. -/
def shapeOk (a : List (List Rat)) (r c : CRange) : Prop :=
  a.length = r.size ∧ ∀ row ∈ a, row.length = c.size

instance (a : List (List Rat)) (r c : CRange) : Decidable (shapeOk a r c) := by
  unfold shapeOk; infer_instance

/-- Modelled from the spec: `write(row_range, col_range, array)` (§4.1).
Fails with `OutOfBoundsError` when a range leaves the declared shape and
with `ShapeMismatchError` when the payload shape does not match the
addressed region; otherwise replaces exactly the addressed cells. -/
def ChunkedMatrixStore.write (s : ChunkedMatrixStore) (r c : CRange)
    (a : List (List Rat)) : Except StoreError ChunkedMatrixStore :=
  if r.inside s.nrows ∧ c.inside s.ncols then
    if shapeOk a r c then
      .ok { s with data := fun i j =>
        if (r.memb i ∧ c.memb j) then
          ((a.getD (i - r.start) []).getD (j - c.start) 0)
        else s.data i j }
    else .error .shapeMismatch
  else .error .outOfBounds

/-- The materialized content of the chunk at block coordinates
`(bi, bj)`: the rectangular slice the chunk stores on disk. -/
def ChunkedMatrixStore.chunkData (s : ChunkedMatrixStore) (bi bj : Nat) :
    List (List Rat) :=
  (List.range s.chunkRows).map fun i =>
    (List.range s.chunkCols).map fun j =>
      s.data (bi * s.chunkRows + i) (bj * s.chunkCols + j)

/-- The chunk at block coordinates `(bi, bj)` intersects the write region
addressed by ranges `r × c`. -/
def ChunkedMatrixStore.chunkOverlaps (s : ChunkedMatrixStore)
    (bi bj : Nat) (r c : CRange) : Prop :=
  ∃ i < s.chunkRows, ∃ j < s.chunkCols,
    r.memb (bi * s.chunkRows + i) ∧ c.memb (bj * s.chunkCols + j)

/-- Modelled from the spec: an Assay (§3): feature axis, matrix data (rows
are cells, in shared-cell-index order; columns are features) and the
per-cell active flags.  `scarf/datastore.py` is absent from the source
tree. -/
structure Assay where
  featureIds : List String
  matrix : List (List Rat)
  active : List Bool
  deriving Repr

/-- Reading the matrix value of an assay at (cell ordinal, feature
ordinal); absent positions read as the fill value 0. -/
def Assay.value (a : Assay) (i j : Nat) : Rat :=
  (a.matrix.getD i []).getD j 0

/-- Extend an assay with `n` inactive, zero-filled rows (used by
`add_cells` so row counts stay aligned with the shared cell index). -/
def Assay.extendCells (a : Assay) (n : Nat) : Assay :=
  { featureIds := a.featureIds,
    matrix := a.matrix ++ List.replicate n (List.replicate a.featureIds.length 0),
    active := a.active ++ List.replicate n false }

/-- Modelled from the spec: the DataStore (§4.2): the shared ordered cell
index plus named assays.  `scarf/datastore.py` is absent from the source
tree. -/
structure DataStore where
  sharedCellIndex : List String
  assays : List (String × Assay)
  deriving Repr

/-- Modelled from the spec: `add_cells(new_cell_ids)` appends to the
shared cell index and extends every existing assay with inactive/zero
rows for the new cells. -/
def DataStore.add_cells (ds : DataStore) (newCellIds : List String) : DataStore :=
  { sharedCellIndex := ds.sharedCellIndex ++ newCellIds,
    assays := ds.assays.map fun na => (na.1, na.2.extendCells newCellIds.length) }

/-- The alignment invariant (§8): every assay's matrix row count equals
the length of the store's shared cell index. -/
def DataStore.aligned (ds : DataStore) : Prop :=
  ∀ na ∈ ds.assays, na.2.matrix.length = ds.sharedCellIndex.length

/-- The secondary assay's value for the (cell id, feature id) pair,
matched by identifier, with fill value 0 when the pair carries no
secondary data. -/
def secValue (secCells secFeatures : List String) (secMatrix : List (List Rat))
    (cid fid : String) : Rat :=
  match secCells.findIdx? (· == cid), secFeatures.findIdx? (· == fid) with
  | some i, some j => (secMatrix.getD i []).getD j 0
  | _, _ => 0

/-- Step 2 of the meld algorithm, feature axis: the secondary features
absent from the primary assay, in the order they appear in the
secondary. -/
def Assay.newFeatures (a : Assay) (secFeatures : List String) : List String :=
  secFeatures.filter fun f => ! a.featureIds.contains f

/-- The merged feature axis: primary features first, then the secondary's
new features in secondary order. -/
def Assay.mergedFeatures (a : Assay) (secFeatures : List String) : List String :=
  a.featureIds ++ a.newFeatures secFeatures

/-- Modelled from the spec: melding a secondary assay into a primary
assay (§4.3, steps 1–4): secondary features absent from the primary are
appended as new columns in secondary order; the primary's existing
region (`matched × matched` and everything already present) is kept
authoritative; positions outside it take the secondary's value matched by
identifier, or the fill value 0. -/
def meldAssay (a : Assay) (oldCells : Nat) (mergedIndex : List String)
    (secCells secFeatures : List String) (secMatrix : List (List Rat)) : Assay :=
  { featureIds := a.mergedFeatures secFeatures,
    matrix := (List.range mergedIndex.length).map fun i =>
      (List.range (a.mergedFeatures secFeatures).length).map fun j =>
        if (i < oldCells ∧ j < a.featureIds.length) then a.value i j
        else secValue secCells secFeatures secMatrix
          (mergedIndex.getD i "") ((a.mergedFeatures secFeatures).getD j ""),
    active := (List.range mergedIndex.length).map fun i =>
      if i < oldCells then a.active.getD i false
      else secCells.contains (mergedIndex.getD i "") }

/-- Step 2 of the meld algorithm, cell axis: the secondary cells absent
from the primary's shared cell index, in secondary order. -/
def DataStore.newCells (ds : DataStore) (secCells : List String) : List String :=
  secCells.filter fun cid => ! ds.sharedCellIndex.contains cid

/-- Modelled from the spec: `AssayMelder` (§4.3): secondary cells absent
from the primary are appended to the shared cell index (step 5 runs
`add_cells` semantics over every assay); the target assay additionally
receives the secondary's columns and values. -/
def DataStore.meld (ds : DataStore) (target : String)
    (secCells secFeatures : List String) (secMatrix : List (List Rat)) : DataStore :=
  { sharedCellIndex := ds.sharedCellIndex ++ ds.newCells secCells,
    assays := ds.assays.map fun na =>
      if na.1 = target then
        (na.1, meldAssay na.2 ds.sharedCellIndex.length
          (ds.sharedCellIndex ++ ds.newCells secCells)
          secCells secFeatures secMatrix)
      else
        (na.1, na.2.extendCells (ds.newCells secCells).length) }

/-- Default element used when indexing the assay list. -/
def dummyAssay : String × Assay := ("", ⟨[], [], []⟩)

/-- The ordinals of the active cells of an assay. -/
def activeIndices (active : List Bool) : List Nat :=
  (List.range active.length).filter fun i => active.getD i false

/-- A built k-nearest-neighbor graph, stored as three aligned arrays in
CSR style (§3). -/
structure Graph where
  indices : List Nat
  distances : List Rat
  offsets : List Nat
  deriving Repr

/-- Comparison of candidate neighbors by distance. -/
def distLE (p q : Nat × Rat) : Prop := p.2 ≤ q.2

instance : DecidableRel distLE := fun p q => inferInstanceAs (Decidable (p.2 ≤ q.2))

instance : IsTotal (Nat × Rat) distLE := ⟨fun a b => le_total a.2 b.2⟩

instance : IsTrans (Nat × Rat) distLE := ⟨fun _ _ _ => le_trans⟩

/-- The k nearest neighbors of cell `c`: all other active cells paired
with their distance to `c`, sorted by non-decreasing distance, truncated
at `k`. -/
def knn (a : Assay) (metric : List Rat → List Rat → Rat) (k c : Nat) :
    List (Nat × Rat) :=
  let cands := ((activeIndices a.active).filter fun d => d != c).map
    fun d => (d, metric (a.matrix.getD c []) (a.matrix.getD d []))
  (List.insertionSort distLE cands).take k

/-- The CSR offsets array for per-cell neighbor-list lengths, starting
from `acc`. -/
def csrOffsets : Nat → List Nat → List Nat
  | acc, [] => [acc]
  | acc, n :: rest => acc :: csrOffsets (acc + n) rest

/-- Modelled from the spec: `GraphBuilder.build(assay, k, metric)` (§4.4):
fails with `InsufficientDataError` when the active cell count is below
`k+1`; otherwise commits the per-active-cell neighbor lists as a CSR
graph. -/
def GraphBuilder.build (a : Assay) (k : Nat)
    (metric : List Rat → List Rat → Rat) : Except StoreError Graph :=
  if (activeIndices a.active).length < k + 1 then .error .insufficientData
  else
    let lists := (activeIndices a.active).map fun c => knn a metric k c
    .ok { indices := (lists.map fun l => l.map Prod.fst).flatten,
          distances := (lists.map fun l => l.map Prod.snd).flatten,
          offsets := csrOffsets 0 (lists.map List.length) }

/-- The primary assay of the concrete melding scenario (§8): 3 cells,
2 features, with cell c2 / feature F2 holding 5. -/
def demoAssay : Assay :=
  { featureIds := ["F1", "F2"],
    matrix := [[1, 2], [3, 5], [4, 6]],
    active := [true, true, true] }

/-- The primary store of the concrete melding scenario. -/
def demoDS : DataStore :=
  { sharedCellIndex := ["c1", "c2", "c3"], assays := [("RNA", demoAssay)] }

/-- Squared euclidean distance, the concrete metric used to instantiate
the graph theorems. -/
def demoMetric (x y : List Rat) : Rat :=
  ((x.zip y).map fun p => (p.1 - p.2) * (p.1 - p.2)).sum

/-- A 3-cell, 1-feature assay on which graph building succeeds for k=1. -/
def demoGraphAssay : Assay :=
  { featureIds := ["F1"], matrix := [[0], [1], [3]], active := [true, true, true] }

/-- The graph built over `demoGraphAssay` with k=1. -/
def demoGraph : Graph :=
  ((GraphBuilder.build demoGraphAssay 1 demoMetric).toOption).getD ⟨[], [], []⟩

/-- A 4-active-cell assay, on which graph building with k=5 must fail. -/
def demoSmallAssay : Assay :=
  { featureIds := ["F1"],
    matrix := [[0], [1], [2], [3]],
    active := [true, true, true, true] }

/-- A small concrete store used to instantiate the chunked-store theorems. -/
def demoStore : ChunkedMatrixStore :=
  { nrows := 4, ncols := 4, chunkRows := 2, chunkCols := 2,
    data := fun i j => ((i * 4 + j : Nat) : Rat) }

/-- The store obtained from `demoStore` by writing the single value 7 at
cell (0, 0). -/
def demoWritten : ChunkedMatrixStore :=
  ((demoStore.write ⟨0, 1⟩ ⟨0, 1⟩ [[7]]).toOption).getD demoStore

theorem getD_map_of_lt {α β : Type} (f : α → β) (l : List α) (n : Nat)
    (d : α) (d' : β) (hn : n < l.length) :
    ((l.map f).getD n d') = f (l.getD n d) := by
  rw [List.getD_eq_getElem _ _ (by simpa using hn), List.getD_eq_getElem _ _ hn,
    List.getElem_map]

theorem getD_map_range {α : Type} (f : Nat → α) (n i : Nat) (d : α)
    (h : i < n) :
    (((List.range n).map f).getD i d) = f i := by
  rw [getD_map_of_lt f (List.range n) i 0 d (by simpa using h)]
  congr 1
  rw [List.getD_eq_getElem _ _ (by simpa using h), List.getElem_range]

theorem getD_replicate_zero (m j : Nat) :
    ((List.replicate m (0 : Rat)).getD j 0) = 0 := by
  by_cases h : j < m
  · rw [List.getD_eq_getElem (List.replicate m (0 : Rat)) 0 (by simpa using h),
      List.getElem_replicate]
  · exact List.getD_eq_default _ _ (by simpa using Nat.le_of_not_lt h)

theorem getD_getD_replicate_zero (n m i j : Nat) :
    (((List.replicate n (List.replicate m (0 : Rat))).getD i []).getD j 0) = 0 := by
  by_cases h : i < n
  · rw [List.getD_eq_getElem (List.replicate n (List.replicate m (0 : Rat))) []
      (by simpa using h), List.getElem_replicate]
    exact getD_replicate_zero m j
  · rw [List.getD_eq_default (List.replicate n (List.replicate m (0 : Rat))) []
      (by simpa using Nat.le_of_not_lt h)]
    rfl

/-- C1: melder additivity: after melding a secondary assay into the
primary store, reading any (cell ordinal, feature ordinal) pair that
existed in the primary before the meld — in any of its assays — returns
the primary's original value unchanged; in particular matched-feature ×
matched-cell values are never overwritten. -/
theorem meld_additivity (ds : DataStore) (target : String)
    (secCells secFeatures : List String) (secMatrix : List (List Rat))
    (n i j : Nat) (hn : n < ds.assays.length)
    (hi : i < ds.sharedCellIndex.length)
    (hj : j < ((ds.assays.getD n dummyAssay).2.featureIds.length)) :
    ((ds.meld target secCells secFeatures secMatrix).assays.getD n dummyAssay).2.value i j
      = (ds.assays.getD n dummyAssay).2.value i j := by
  have hmap :
      ((ds.meld target secCells secFeatures secMatrix).assays.getD n dummyAssay)
        = if (ds.assays.getD n dummyAssay).1 = target then
            ((ds.assays.getD n dummyAssay).1,
              meldAssay (ds.assays.getD n dummyAssay).2 ds.sharedCellIndex.length
                (ds.sharedCellIndex ++ ds.newCells secCells)
                secCells secFeatures secMatrix)
          else ((ds.assays.getD n dummyAssay).1,
            (ds.assays.getD n dummyAssay).2.extendCells (ds.newCells secCells).length) := by
    unfold DataStore.meld
    exact getD_map_of_lt _ ds.assays n dummyAssay dummyAssay hn
  rw [hmap]
  by_cases ht : (ds.assays.getD n dummyAssay).1 = target
  · rw [if_pos ht]
    have hi' : i < (ds.sharedCellIndex ++ ds.newCells secCells).length := by
      rw [List.length_append]
      exact Nat.lt_of_lt_of_le hi (Nat.le_add_right _ _)
    have hj' : j < ((ds.assays.getD n dummyAssay).2.mergedFeatures secFeatures).length := by
      unfold Assay.mergedFeatures
      rw [List.length_append]
      exact Nat.lt_of_lt_of_le hj (Nat.le_add_right _ _)
    show ((meldAssay _ _ _ _ _ _).matrix.getD i []).getD j 0 = _
    simp only [meldAssay]
    rw [getD_map_range _ _ i [] hi', getD_map_range _ _ j 0 hj', if_pos ⟨hi, hj⟩]
  · rw [if_neg ht]
    show (((ds.assays.getD n dummyAssay).2.extendCells
      (ds.newCells secCells).length).matrix.getD i []).getD j 0 = _
    simp only [Assay.extendCells]
    by_cases him : i < (ds.assays.getD n dummyAssay).2.matrix.length
    · rw [List.getD_append _ _ _ _ him]
      rfl
    · rw [List.getD_append_right _ _ _ _ (Nat.le_of_not_lt him)]
      unfold Assay.value
      rw [List.getD_eq_default ((ds.assays.getD n dummyAssay).2.matrix) []
        (Nat.le_of_not_lt him)]
      exact getD_getD_replicate_zero _ _ _ _

/-- Witness for C1: in the §8 scenario, the primary's value 5 at
(cell c2, feature F2) survives melding the secondary (which carries 9
there) unchanged. -/
theorem meld_additivity_witness :
    ((demoDS.meld "RNA" ["c2", "c4"] ["F2", "F3"] [[9, 8], [6, 7]]).assays.getD 0 dummyAssay).2.value 1 1
      = (demoDS.assays.getD 0 dummyAssay).2.value 1 1 :=
  meld_additivity demoDS "RNA" ["c2", "c4"] ["F2", "F3"] [[9, 8], [6, 7]]
    0 1 1 (by decide) (by decide) (by decide)

/-- C2: alignment invariant: if every assay's matrix row count equals the
length of the shared cell index, this still holds after any `add_cells`
call and after any meld. -/
theorem alignment_invariant (ds : DataStore) (hal : ds.aligned)
    (newIds : List String) (target : String)
    (secCells secFeatures : List String) (secMatrix : List (List Rat)) :
    (ds.add_cells newIds).aligned ∧
    (ds.meld target secCells secFeatures secMatrix).aligned := by
  constructor
  · intro na' hna'
    simp only [DataStore.add_cells, List.mem_map] at hna'
    obtain ⟨na, hna, rfl⟩ := hna'
    simp [Assay.extendCells, DataStore.add_cells, hal na hna]
  · intro na' hna'
    simp only [DataStore.meld, List.mem_map] at hna'
    obtain ⟨na, hna, rfl⟩ := hna'
    by_cases ht : na.1 = target
    · simp [ht, meldAssay, DataStore.meld]
    · simp [ht, Assay.extendCells, DataStore.meld, hal na hna]

/-- Witness for C2: alignment of the concrete scenario store survives
adding a cell and melding the secondary assay. -/
theorem alignment_invariant_witness :
    (demoDS.add_cells ["c9"]).aligned ∧
    (demoDS.meld "RNA" ["c2", "c4"] ["F2", "F3"] [[9, 8], [6, 7]]).aligned :=
  alignment_invariant demoDS (by unfold DataStore.aligned; decide) ["c9"] "RNA"
    ["c2", "c4"] ["F2", "F3"] [[9, 8], [6, 7]]

/-- C3: melder completeness: after a meld, the shared cell index is the
primary's index with the secondary's unmatched cells appended in
secondary order (so every secondary cell id is present), and the target
assay's feature axis is the primary's features with the secondary's
unmatched features appended in secondary order (so every secondary
feature id is present); matching is by identifier. -/
theorem meld_completeness (ds : DataStore) (target : String)
    (secCells secFeatures : List String) (secMatrix : List (List Rat))
    (n : Nat) (hn : n < ds.assays.length)
    (ht : (ds.assays.getD n dummyAssay).1 = target) :
    (ds.meld target secCells secFeatures secMatrix).sharedCellIndex
      = ds.sharedCellIndex ++ ds.newCells secCells ∧
    (∀ cid ∈ secCells,
      cid ∈ (ds.meld target secCells secFeatures secMatrix).sharedCellIndex) ∧
    ((ds.meld target secCells secFeatures secMatrix).assays.getD n dummyAssay).2.featureIds
      = (ds.assays.getD n dummyAssay).2.featureIds
        ++ (ds.assays.getD n dummyAssay).2.newFeatures secFeatures ∧
    (∀ f ∈ secFeatures,
      f ∈ ((ds.meld target secCells secFeatures secMatrix).assays.getD n dummyAssay).2.featureIds) := by
  have hmap :
      ((ds.meld target secCells secFeatures secMatrix).assays.getD n dummyAssay)
        = ((ds.assays.getD n dummyAssay).1,
            meldAssay (ds.assays.getD n dummyAssay).2 ds.sharedCellIndex.length
              (ds.sharedCellIndex ++ ds.newCells secCells)
              secCells secFeatures secMatrix) := by
    unfold DataStore.meld
    rw [getD_map_of_lt _ ds.assays n dummyAssay dummyAssay hn, if_pos ht]
  refine ⟨rfl, ?_, ?_, ?_⟩
  · intro cid hcid
    show cid ∈ ds.sharedCellIndex ++ ds.newCells secCells
    rw [List.mem_append]
    by_cases hc : cid ∈ ds.sharedCellIndex
    · exact Or.inl hc
    · refine Or.inr ?_
      unfold DataStore.newCells
      rw [List.mem_filter]
      exact ⟨hcid, by simp [hc]⟩
  · rw [hmap]
    rfl
  · intro f hf
    rw [hmap]
    show f ∈ (ds.assays.getD n dummyAssay).2.mergedFeatures secFeatures
    unfold Assay.mergedFeatures
    rw [List.mem_append]
    by_cases hc : f ∈ (ds.assays.getD n dummyAssay).2.featureIds
    · exact Or.inl hc
    · refine Or.inr ?_
      unfold Assay.newFeatures
      rw [List.mem_filter]
      exact ⟨hf, by simpa using hc⟩

/-- Witness for C3: the concrete scenario instantiation: all of c2, c4,
F2, F3 are present after the meld, the new cell c4 and the new feature
F3 being appended. -/
theorem meld_completeness_witness :
    (demoDS.meld "RNA" ["c2", "c4"] ["F2", "F3"] [[9, 8], [6, 7]]).sharedCellIndex
      = demoDS.sharedCellIndex ++ demoDS.newCells ["c2", "c4"] ∧
    (∀ cid ∈ ["c2", "c4"],
      cid ∈ (demoDS.meld "RNA" ["c2", "c4"] ["F2", "F3"] [[9, 8], [6, 7]]).sharedCellIndex) ∧
    ((demoDS.meld "RNA" ["c2", "c4"] ["F2", "F3"] [[9, 8], [6, 7]]).assays.getD 0 dummyAssay).2.featureIds
      = (demoDS.assays.getD 0 dummyAssay).2.featureIds
        ++ (demoDS.assays.getD 0 dummyAssay).2.newFeatures ["F2", "F3"] ∧
    (∀ f ∈ ["F2", "F3"],
      f ∈ ((demoDS.meld "RNA" ["c2", "c4"] ["F2", "F3"] [[9, 8], [6, 7]]).assays.getD 0 dummyAssay).2.featureIds) :=
  meld_completeness demoDS "RNA" ["c2", "c4"] ["F2", "F3"] [[9, 8], [6, 7]]
    0 (by decide) (by decide)

theorem csrOffsets_head? (l : List Nat) (acc : Nat) :
    (csrOffsets acc l).head? = some acc := by
  cases l <;> rfl

theorem csrOffsets_chain (l : List Nat) :
    ∀ acc, List.Chain' (· ≤ ·) (csrOffsets acc l) := by
  induction l with
  | nil => intro acc; exact List.chain'_singleton acc
  | cons n rest ih =>
    intro acc
    show List.Chain' (· ≤ ·) (acc :: csrOffsets (acc + n) rest)
    rw [List.chain'_cons']
    refine ⟨?_, ih (acc + n)⟩
    intro y hy
    rw [csrOffsets_head? rest (acc + n)] at hy
    obtain rfl : acc + n = y := by simpa using hy
    exact Nat.le_add_right acc n

theorem csrOffsets_getLast? (l : List Nat) :
    ∀ acc, (csrOffsets acc l).getLast? = some (acc + l.sum) := by
  induction l with
  | nil => intro acc; simp [csrOffsets]
  | cons n rest ih =>
    intro acc
    show (acc :: csrOffsets (acc + n) rest).getLast? = _
    cases hrest : csrOffsets (acc + n) rest with
    | nil => cases rest <;> simp [csrOffsets] at hrest
    | cons b t =>
      rw [List.getLast?_cons_cons, ← hrest, ih (acc + n)]
      congr 1
      simp only [List.sum_cons]
      omega

/-- C4: graph well-formedness: any graph committed by
`GraphBuilder.build` satisfies the CSR invariants (offsets start at 0,
are non-decreasing, and end at the length of the indices array, which
concatenates the per-cell neighbor lists), and every active cell's
neighbor list has at most k entries, none equal to the cell itself, all
referencing active cells, with non-decreasing distances. -/
theorem graph_well_formedness (a : Assay) (k : Nat)
    (metric : List Rat → List Rat → Rat) (g : Graph)
    (h : GraphBuilder.build a k metric = .ok g) :
    g.offsets.head? = some 0 ∧
    List.Chain' (· ≤ ·) g.offsets ∧
    g.offsets.getLast? = some g.indices.length ∧
    g.indices = ((activeIndices a.active).map fun c =>
      (knn a metric k c).map Prod.fst).flatten ∧
    (∀ c ∈ activeIndices a.active,
      (knn a metric k c).length ≤ k ∧
      (∀ p ∈ knn a metric k c, p.1 ≠ c ∧ p.1 ∈ activeIndices a.active) ∧
      List.Sorted (· ≤ ·) ((knn a metric k c).map Prod.snd)) := by
  unfold GraphBuilder.build at h
  by_cases hk : (activeIndices a.active).length < k + 1
  · rw [if_pos hk] at h
    exact absurd h (by simp)
  · rw [if_neg hk] at h
    injection h with h
    subst h
    have hflat : ∀ L : List (List (Nat × Rat)),
        ((L.map fun l => l.map Prod.fst).flatten).length = (L.map List.length).sum := by
      intro L
      rw [List.length_flatten, List.map_map]
      congr 1
      apply List.map_congr_left
      intro l _
      simp [Function.comp]
    refine ⟨csrOffsets_head? _ 0, csrOffsets_chain _ 0, ?_,
      by rw [List.map_map]; rfl, ?_⟩
    · rw [csrOffsets_getLast?]
      congr 1
      rw [Nat.zero_add]
      exact (hflat _).symm
    · intro c hc
      refine ⟨?_, ?_, ?_⟩
      · show (List.take k _).length ≤ k
        rw [List.length_take]
        exact Nat.min_le_left _ _
      · intro p hp
        have hp' : p ∈ List.insertionSort distLE
            (((activeIndices a.active).filter fun d => d != c).map
              fun d => (d, metric (a.matrix.getD c []) (a.matrix.getD d []))) :=
          List.mem_of_mem_take hp
        rw [List.mem_insertionSort, List.mem_map] at hp'
        obtain ⟨d, hd, rfl⟩ := hp'
        rw [List.mem_filter] at hd
        exact ⟨by simpa using hd.2, hd.1⟩
      · have hs := List.sorted_insertionSort distLE
          (((activeIndices a.active).filter fun d => d != c).map
            fun d => (d, metric (a.matrix.getD c []) (a.matrix.getD d [])))
        have hst := hs.sublist (List.take_sublist k _)
        exact List.pairwise_map.mpr hst

/-- Witness for C4: the graph built over the concrete 3-cell assay with
k=1 satisfies all the well-formedness invariants. -/
theorem graph_well_formedness_witness :
    demoGraph.offsets.head? = some 0 ∧
    List.Chain' (· ≤ ·) demoGraph.offsets ∧
    demoGraph.offsets.getLast? = some demoGraph.indices.length ∧
    demoGraph.indices = ((activeIndices demoGraphAssay.active).map fun c =>
      (knn demoGraphAssay demoMetric 1 c).map Prod.fst).flatten ∧
    (∀ c ∈ activeIndices demoGraphAssay.active,
      (knn demoGraphAssay demoMetric 1 c).length ≤ 1 ∧
      (∀ p ∈ knn demoGraphAssay demoMetric 1 c,
        p.1 ≠ c ∧ p.1 ∈ activeIndices demoGraphAssay.active) ∧
      List.Sorted (· ≤ ·) ((knn demoGraphAssay demoMetric 1 c).map Prod.snd)) :=
  graph_well_formedness demoGraphAssay 1 demoMetric demoGraph rfl

/-- C5: `GraphBuilder.build` fails with `InsufficientDataError` whenever
the active cell count is less than k+1. -/
theorem build_insufficient_data (a : Assay) (k : Nat)
    (metric : List Rat → List Rat → Rat)
    (h : (activeIndices a.active).length < k + 1) :
    GraphBuilder.build a k metric = .error .insufficientData := by
  unfold GraphBuilder.build
  rw [if_pos h]

/-- Witness for C5: building a graph with k=5 over 4 active cells fails
with `InsufficientDataError`. -/
theorem build_insufficient_data_witness :
    GraphBuilder.build demoSmallAssay 5 demoMetric = .error .insufficientData :=
  build_insufficient_data demoSmallAssay 5 demoMetric (by decide)

/-- C6: `read` returns the materialized block whenever both ranges lie
within the declared matrix shape, and fails with `OutOfBoundsError`
whenever a range lies outside the declared shape. -/
theorem read_inside_ok_outside_oub (s : ChunkedMatrixStore) (r c : CRange) :
    (r.inside s.nrows ∧ c.inside s.ncols →
      s.read r c = .ok ((List.range r.size).map fun i =>
        (List.range c.size).map fun j => s.data (r.start + i) (c.start + j))) ∧
    (¬(r.inside s.nrows ∧ c.inside s.ncols) →
      s.read r c = .error .outOfBounds) := by
  constructor <;> intro h <;> simp [ChunkedMatrixStore.read, h]

/-- Witness for C6: on the concrete 4×4 store, an in-bounds read
materializes the block and an out-of-bounds read errors. -/
theorem read_inside_ok_outside_oub_witness :
    demoStore.read ⟨0, 2⟩ ⟨1, 3⟩ =
      .ok ((List.range (2 - 0)).map fun i =>
        (List.range (3 - 1)).map fun j => demoStore.data (0 + i) (1 + j)) ∧
    demoStore.read ⟨0, 6⟩ ⟨0, 2⟩ = .error .outOfBounds :=
  ⟨(read_inside_ok_outside_oub demoStore ⟨0, 2⟩ ⟨1, 3⟩).1 (by decide),
   (read_inside_ok_outside_oub demoStore ⟨0, 6⟩ ⟨0, 2⟩).2 (by decide)⟩

/-- C7: within the declared shape, `write` fails with `ShapeMismatchError`
when the payload shape does not match the addressed region; a successful
write replaces exactly the addressed cells (a chunk it partially overlaps
is read-modify-written: its cells inside the region take the payload, the
rest keep their values) and every chunk not overlapping the region is left
byte-identical. -/
theorem write_shape_and_chunk_locality (s : ChunkedMatrixStore)
    (r c : CRange) (a : List (List Rat))
    (hr : r.inside s.nrows) (hc : c.inside s.ncols) :
    (¬ shapeOk a r c → s.write r c a = .error .shapeMismatch) ∧
    (∀ s', s.write r c a = .ok s' →
      (∀ i j, r.memb i → c.memb j →
        s'.data i j = (a.getD (i - r.start) []).getD (j - c.start) 0) ∧
      (∀ i j, ¬(r.memb i ∧ c.memb j) → s'.data i j = s.data i j) ∧
      (∀ bi bj, ¬ s.chunkOverlaps bi bj r c →
        s'.chunkData bi bj = s.chunkData bi bj)) := by
  constructor
  · intro hbad
    simp [ChunkedMatrixStore.write, hr, hc, hbad]
  · intro s' hs'
    by_cases hso : shapeOk a r c
    · simp [ChunkedMatrixStore.write, hr, hc, hso] at hs'
      subst hs'
      refine ⟨fun i j hi hj => by simp [hi, hj], fun i j hij => by simp [hij], ?_⟩
      intro bi bj hov
      unfold ChunkedMatrixStore.chunkData
      refine List.map_congr_left fun i hi => List.map_congr_left fun j hj => ?_
      rw [List.mem_range] at hi hj
      have : ¬(r.memb (bi * s.chunkRows + i) ∧ c.memb (bj * s.chunkCols + j)) := by
        intro hmem
        exact hov ⟨i, hi, j, hj, hmem.1, hmem.2⟩
      simp [this]
    · simp [ChunkedMatrixStore.write, hr, hc, hso] at hs'

/-- Witness for C7: the theorem instantiated on the concrete 4×4 store at
the single-cell range (0,0) with payload [[7]]. -/
theorem write_shape_and_chunk_locality_witness :
    (¬ shapeOk [[7]] ⟨0, 1⟩ ⟨0, 1⟩ →
      demoStore.write ⟨0, 1⟩ ⟨0, 1⟩ [[7]] = .error .shapeMismatch) ∧
    (∀ s', demoStore.write ⟨0, 1⟩ ⟨0, 1⟩ [[7]] = .ok s' →
      (∀ i j, CRange.memb ⟨0, 1⟩ i → CRange.memb ⟨0, 1⟩ j →
        s'.data i j = (([[(7 : Rat)]].getD (i - 0) []).getD (j - 0) 0)) ∧
      (∀ i j, ¬(CRange.memb ⟨0, 1⟩ i ∧ CRange.memb ⟨0, 1⟩ j) →
        s'.data i j = demoStore.data i j) ∧
      (∀ bi bj, ¬ demoStore.chunkOverlaps bi bj ⟨0, 1⟩ ⟨0, 1⟩ →
        s'.chunkData bi bj = demoStore.chunkData bi bj)) :=
  write_shape_and_chunk_locality demoStore ⟨0, 1⟩ ⟨0, 1⟩ [[7]]
    (by decide) (by decide)

/-- C8: chunk write idempotence: if writing payload `a` at a block address
once succeeds and yields `s'`, then writing the same block again with the
same data succeeds and every subsequent read is identical to the read
after the single write. -/
theorem write_idempotent (s s' : ChunkedMatrixStore) (r c : CRange)
    (a : List (List Rat)) (h : s.write r c a = .ok s') :
    ∃ s'', s'.write r c a = .ok s'' ∧
      ∀ r2 c2, s''.read r2 c2 = s'.read r2 c2 := by
  by_cases h1 : (r.inside s.nrows ∧ c.inside s.ncols)
  · by_cases h2 : shapeOk a r c
    · simp [ChunkedMatrixStore.write, h1, h2] at h
      refine ⟨s', ?_, fun r2 c2 => rfl⟩
      subst h
      simp only [ChunkedMatrixStore.write, h1, h2, and_self, if_true]
      congr 1
      congr 1
      funext i j
      by_cases hm : (r.memb i ∧ c.memb j) <;> simp [hm]
    · simp [ChunkedMatrixStore.write, h1, h2] at h
  · simp [ChunkedMatrixStore.write, h1] at h

/-- Witness for C8: writing [[7]] at cell (0,0) of the concrete store a
second time succeeds and changes no subsequent read. -/
theorem write_idempotent_witness :
    ∃ s'', demoWritten.write ⟨0, 1⟩ ⟨0, 1⟩ [[7]] = .ok s'' ∧
      ∀ r2 c2, s''.read r2 c2 = demoWritten.read r2 c2 :=
  write_idempotent demoStore demoWritten ⟨0, 1⟩ ⟨0, 1⟩ [[7]] rfl

/-- C9: the two cell-cycle gene lists are disjoint: no gene symbol appears in
both `s_phase_genes` and `g2m_phase_genes`. -/
theorem s_g2m_disjoint : ∀ g ∈ s_phase_genes, g ∉ g2m_phase_genes := by
  decide

/-- Witness for C9: the first S-phase gene, MCM5, is indeed not a
G2M-phase gene. -/
theorem s_g2m_disjoint_witness : "MCM5" ∉ g2m_phase_genes :=
  s_g2m_disjoint "MCM5" (by decide)

/-- C10: each cell-cycle gene list is duplicate-free and has a fixed size:
`s_phase_genes` holds exactly 43 distinct symbols and `g2m_phase_genes`
exactly 54. -/
theorem gene_lists_sizes_nodup :
    s_phase_genes.length = 43 ∧ s_phase_genes.Nodup ∧
    g2m_phase_genes.length = 54 ∧ g2m_phase_genes.Nodup := by
  refine ⟨by decide, by decide, by decide, by decide⟩

end Scarf
